import Mathlib

/-!
Verification of the authentication and token-lifecycle subsystem of a
VS Code Pomodoro/Spotify extension: PKCE challenge generation, CSRF state
handling, the local redirect listener (`AuthCallbackServer`), the
authorization-code-to-token exchange and refresh-token renewal with expiry
tracking (`SpotifyService`).

The TypeScript source is shallowly embedded: stateful methods become pure
functions from an explicit state to a new state plus a list of emitted
effects; JavaScript truthiness on `string | null` and `number | undefined`
values is modelled explicitly; byte strings are `List Nat` with each entry
below 256.
-/

namespace PomodoroSpotify

/-- JavaScript truthiness of a `string | null | undefined` value:
falsy when absent or the empty string. -/
def truthyStr : Option String → Bool
  | none => false
  | some s => s ≠ ""

/-- JavaScript truthiness of a `number | undefined` value:
falsy when absent or zero. -/
def truthyNum : Option Int → Bool
  | none => false
  | some n => n ≠ 0

/-! ## base64url (Node `Buffer.toString('base64url')`: no padding) -/

/-- The base64url alphabet, `A–Z a–z 0–9 - _`. -/
def base64urlAlphabet : List Char :=
  "ABCDEFGHIJKLMNOPQRSTUVWXYZabcdefghijklmnopqrstuvwxyz0123456789-_".toList

/-- The base64url digit for a 6-bit value. -/
def b64Char (n : Nat) : Char := base64urlAlphabet.getD n 'A'

/-- base64url encoding of a byte sequence, without padding, as produced by
Node's `Buffer.toString('base64url')`: each group of 3 bytes becomes 4
digits; a trailing group of 1 byte becomes 2 digits and of 2 bytes becomes
3 digits. -/
def base64urlEncode : List Nat → List Char
  | [] => []
  | [b1] => [b64Char (b1 / 4), b64Char (b1 % 4 * 16)]
  | [b1, b2] =>
      [b64Char (b1 / 4), b64Char (b1 % 4 * 16 + b2 / 16), b64Char (b2 % 16 * 4)]
  | b1 :: b2 :: b3 :: rest =>
      b64Char (b1 / 4) :: b64Char (b1 % 4 * 16 + b2 / 16) ::
      b64Char (b2 % 16 * 4 + b3 / 64) :: b64Char (b3 % 64) ::
      base64urlEncode rest

/-- Length of a base64url encoding in terms of the input length. -/
theorem base64urlEncode_length (l : List Nat) :
    (base64urlEncode l).length = (l.length * 4 + 2) / 3 := by
  induction l using base64urlEncode.induct
  all_goals simp [base64urlEncode, *]
  all_goals omega

/-! ## SHA-256 (FIPS 180-4), on bytes as `List Nat` -/

/-- Truncation to a 32-bit word. -/
def w32 (n : Nat) : Nat := n % 4294967296

/-- 32-bit right rotation. -/
def rotr32 (x n : Nat) : Nat := w32 ((x >>> n) ||| (x <<< (32 - n)))

/-- 32-bit bitwise complement. -/
def not32 (x : Nat) : Nat := 4294967295 - w32 x

/-- SHA-256 `Ch(x,y,z)`. -/
def shaCh (x y z : Nat) : Nat := (x &&& y) ^^^ (not32 x &&& z)

/-- SHA-256 `Maj(x,y,z)`. -/
def shaMaj (x y z : Nat) : Nat := (x &&& y) ^^^ (x &&& z) ^^^ (y &&& z)

/-- SHA-256 `Σ₀`. -/
def bsig0 (x : Nat) : Nat := rotr32 x 2 ^^^ rotr32 x 13 ^^^ rotr32 x 22

/-- SHA-256 `Σ₁`. -/
def bsig1 (x : Nat) : Nat := rotr32 x 6 ^^^ rotr32 x 11 ^^^ rotr32 x 25

/-- SHA-256 `σ₀`. -/
def ssig0 (x : Nat) : Nat := rotr32 x 7 ^^^ rotr32 x 18 ^^^ (x >>> 3)

/-- SHA-256 `σ₁`. -/
def ssig1 (x : Nat) : Nat := rotr32 x 17 ^^^ rotr32 x 19 ^^^ (x >>> 10)

/-- The 64 SHA-256 round constants of FIPS 180-4, in decimal. -/
def sha256K : List Nat :=
  [1116352408, 1899447441, 3049323471, 3921009573,
   961987163, 1508970993, 2453635748, 2870763221,
   3624381080, 310598401, 607225278, 1426881987,
   1925078388, 2162078206, 2614888103, 3248222580,
   3835390401, 4022224774, 264347078, 604807628,
   770255983, 1249150122, 1555081692, 1996064986,
   2554220882, 2821834349, 2952996808, 3210313671,
   3336571891, 3584528711, 113926993, 338241895,
   666307205, 773529912, 1294757372, 1396182291,
   1695183700, 1986661051, 2177026350, 2456956037,
   2730485921, 2820302411, 3259730800, 3345764771,
   3516065817, 3600352804, 4094571909, 275423344,
   430227734, 506948616, 659060556, 883997877,
   958139571, 1322822218, 1537002063, 1747873779,
   1955562222, 2024104815, 2227730452, 2361852424,
   2428436474, 2756734187, 3204031479, 3329325298]

/-- The eight working variables / hash state of SHA-256. -/
structure Hash8 where
  a : Nat
  b : Nat
  c : Nat
  d : Nat
  e : Nat
  f : Nat
  g : Nat
  h : Nat

/-- The SHA-256 initial hash value of FIPS 180-4, in decimal. -/
def sha256IV : Hash8 :=
  ⟨1779033703, 3144134277, 1013904242, 2773480762,
   1359893119, 2600822924, 528734635, 1541459225⟩

/-- Big-endian decomposition of a 32-bit word into 4 bytes. -/
def word32ToBytes (x : Nat) : List Nat :=
  [x / 16777216 % 256, x / 65536 % 256, x / 256 % 256, x % 256]

/-- Big-endian recomposition of 4 bytes into a 32-bit word; groups a byte
list into 32-bit words. -/
def bytesToWords : List Nat → List Nat
  | b1 :: b2 :: b3 :: b4 :: rest =>
      (b1 * 16777216 + b2 * 65536 + b3 * 256 + b4) :: bytesToWords rest
  | _ => []

/-- Extends the 16 words of a chunk to the 64-entry message schedule. -/
def extendSchedule (w : List Nat) : List Nat :=
  (List.range 48).foldl
    (fun w _ =>
      let n := w.length
      w ++ [w32 (w.getD (n - 16) 0 + ssig0 (w.getD (n - 15) 0) +
                 w.getD (n - 7) 0 + ssig1 (w.getD (n - 2) 0))])
    w

/-- One SHA-256 round: absorbs a schedule word `wi` with round constant `k`. -/
def sha256Round (s : Hash8) (kw : Nat × Nat) : Hash8 :=
  let t1 := w32 (s.h + bsig1 s.e + shaCh s.e s.f s.g + kw.1 + kw.2)
  let t2 := w32 (bsig0 s.a + shaMaj s.a s.b s.c)
  ⟨w32 (t1 + t2), s.a, s.b, s.c, w32 (s.d + t1), s.e, s.f, s.g⟩

/-- The SHA-256 compression function on one 64-byte chunk. -/
def sha256Compress (hs : Hash8) (chunk : List Nat) : Hash8 :=
  let w := extendSchedule (bytesToWords chunk)
  let s := (sha256K.zip w).foldl sha256Round hs
  ⟨w32 (hs.a + s.a), w32 (hs.b + s.b), w32 (hs.c + s.c), w32 (hs.d + s.d),
   w32 (hs.e + s.e), w32 (hs.f + s.f), w32 (hs.g + s.g), w32 (hs.h + s.h)⟩

/-- Folds the compression function over consecutive 64-byte chunks. -/
def sha256Chunks (hs : Hash8) (bytes : List Nat) : Hash8 :=
  if bytes = [] then hs
  else sha256Chunks (sha256Compress hs (bytes.take 64)) (bytes.drop 64)
  termination_by bytes.length
  decreasing_by
    simp only [List.length_drop]
    cases bytes with
    | nil => simp_all
    | cons x xs => simp; omega

/-- SHA-256 padding: a `0x80` byte, zeros to 56 mod 64, and the bit length
as a big-endian 64-bit integer. -/
def sha256Pad (msg : List Nat) : List Nat :=
  let len := msg.length
  let zeros := (64 + 56 - (len + 1) % 64) % 64
  let bitLen := len * 8
  msg ++ [0x80] ++ List.replicate zeros 0 ++
    [bitLen / 2 ^ 56 % 256, bitLen / 2 ^ 48 % 256, bitLen / 2 ^ 40 % 256,
     bitLen / 2 ^ 32 % 256, bitLen / 2 ^ 24 % 256, bitLen / 2 ^ 16 % 256,
     bitLen / 2 ^ 8 % 256, bitLen % 256]

/-- SHA-256 of a byte sequence, as a 32-byte sequence. -/
def sha256 (msg : List Nat) : List Nat :=
  let hs := sha256Chunks sha256IV (sha256Pad msg)
  word32ToBytes hs.a ++ word32ToBytes hs.b ++ word32ToBytes hs.c ++
  word32ToBytes hs.d ++ word32ToBytes hs.e ++ word32ToBytes hs.f ++
  word32ToBytes hs.g ++ word32ToBytes hs.h

/-- A SHA-256 digest is always 32 bytes. -/
theorem sha256_length (msg : List Nat) : (sha256 msg).length = 32 := by
  simp [sha256, word32ToBytes]

/-- The UTF-8 bytes of a string, as `Buffer.from(s)` / `hash.update(s)`
see them. -/
def utf8Bytes (s : String) : List Nat :=
  s.toUTF8.toList.map (fun b => b.toNat)

/-! ## PKCE generator (`SpotifyService.generateCodeVerifier` /
`generateCodeChallenge`)

`generateCodeVerifier` is `crypto.randomBytes(32).toString('base64url')`;
the 32 random bytes drawn from the CSPRNG are made an explicit argument. -/

/-- `generateCodeVerifier`: encodes the 32 freshly drawn random bytes as
base64url without padding. -/
def generateCodeVerifier (randomBytes : List Nat) : String :=
  String.mk (base64urlEncode randomBytes)

/-- `generateCodeChallenge`: SHA-256 of the verifier string, digested as
base64url without padding. -/
def generateCodeChallenge (codeVerifier : String) : String :=
  String.mk (base64urlEncode (sha256 (utf8Bytes codeVerifier)))

/-! ## Redirect listener (`AuthCallbackServer`) -/

/-- The fixed port, matching the Spotify app configuration. -/
def authCallbackPort : Nat := 3000

/-- An error delivered to the `server.on('error')` handler: Node system
errors carry a `code` property; a plain `Error` has none. -/
structure NodeError where
  code : Option String
  message : String
deriving DecidableEq

/-- The rejection produced by `startServer`'s error handler: `EADDRINUSE`
is mapped to a fresh `Error` (no `code`) with the actionable port-in-use
message; every other error is rejected unchanged. -/
def startServerOnError (error : NodeError) : NodeError :=
  if error.code = some "EADDRINUSE" then
    { code := none
      message := "Port 3000 is already in use. Please ensure no other application is using this port and try again." }
  else
    error

/-- The `server` field of `AuthCallbackServer`: `some ()` while an
`http.Server` object is held, `none` after it was set to `null`. -/
structure AuthCallbackServerState where
  server : Option Unit
deriving DecidableEq

/-- `stopServer`: closes and clears the server when one is held, otherwise
does nothing. -/
def stopServer (s : AuthCallbackServerState) : AuthCallbackServerState :=
  if s.server.isSome then { server := none } else s

/-- The query parameters parsed from the callback request URL; each is a
`string | null`-valued lookup. -/
structure CallbackQuery where
  code : Option String
  error : Option String
  state : Option String
deriving DecidableEq

/-- An HTTP response written by the listener. -/
structure HttpResponse where
  status : Nat
  contentType : String
  body : String
deriving DecidableEq

/-- The delayed VS Code URI hand-off scheduled from the success branch,
carrying the encoded `code` and `state`. -/
structure UriHandoff where
  code : String
  state : String
deriving DecidableEq

/-- `getSuccessPageHtml`: the self-contained success page. -/
def getSuccessPageHtml : String :=
"<!DOCTYPE html>
<html lang=\"en\">
<head>
    <meta charset=\"UTF-8\">
    <meta name=\"viewport\" content=\"width=device-width, initial-scale=1.0\">
    <title>Spotify Authorization - Success</title>
    <style>
        body \x7b
            font-family: -apple-system, BlinkMacSystemFont, \x27Segoe UI\x27, Roboto, Oxygen, Ubuntu, Cantarell, sans-serif;
            background: linear-gradient(135deg, #1db954, #1ed760);
            color: white;
            margin: 0;
            padding: 0;
            display: flex;
            justify-content: center;
            align-items: center;
            height: 100vh;
            text-align: center;
        \x7d
        .container \x7b
            background: rgba(0, 0, 0, 0.1);
            backdrop-filter: blur(10px);
            padding: 3rem;
            border-radius: 20px;
            max-width: 500px;
            box-shadow: 0 8px 32px rgba(0, 0, 0, 0.3);
        \x7d
        .success-icon \x7b
            font-size: 4rem;
            margin-bottom: 1rem;
            animation: bounce 1s ease-in-out;
        \x7d
        h1 \x7b
            margin: 1rem 0;
            font-size: 2rem;
            font-weight: 300;
        \x7d
        p \x7b
            font-size: 1.1rem;
            line-height: 1.6;
            margin: 1.5rem 0;
            opacity: 0.9;
        \x7d
        .redirect-info \x7b
            background: rgba(255, 255, 255, 0.1);
            padding: 1rem;
            border-radius: 10px;
            margin: 1.5rem 0;
            border: 1px solid rgba(255, 255, 255, 0.2);
        \x7d
        .spinner \x7b
            width: 20px;
            height: 20px;
            border: 2px solid rgba(255, 255, 255, 0.3);
            border-top: 2px solid white;
            border-radius: 50%;
            animation: spin 1s linear infinite;
            display: inline-block;
            margin-right: 0.5rem;
        \x7d
        @keyframes bounce \x7b
            0%, 20%, 60%, 100% \x7b transform: translateY(0); \x7d
            40% \x7b transform: translateY(-20px); \x7d
            80% \x7b transform: translateY(-10px); \x7d
        \x7d
        @keyframes spin \x7b
            0% \x7b transform: rotate(0deg); \x7d
            100% \x7b transform: rotate(360deg); \x7d
        \x7d
        .footer \x7b
            margin-top: 2rem;
            font-size: 0.9rem;
            opacity: 0.7;
        \x7d
    </style>
</head>
<body>
    <div class=\"container\">
        <div class=\"success-icon\">✅</div>
        <h1>Authorization Successful!</h1>
        <p>You have successfully authorized the VSCode Pomodoro Spotify extension to access your Spotify account.</p>

        <div class=\"redirect-info\">
            <div class=\"spinner\"></div>
            <strong>Redirecting to VS Code...</strong>
        </div>

        <p>If VS Code doesn\x27t open automatically, please return to VS Code manually to continue. You can safely close this browser tab.</p>

        <div class=\"footer\">
            VSCode Pomodoro Spotify Extension
        </div>
    </div>
</body>
</html>"

/-- The error page template up to the interpolation point of
`$\x7berror\x7d` in `<strong>Error: $\x7berror\x7d</strong>`. -/
def errorPageBefore : String :=
"<!DOCTYPE html>
<html lang=\"en\">
<head>
    <meta charset=\"UTF-8\">
    <meta name=\"viewport\" content=\"width=device-width, initial-scale=1.0\">
    <title>Spotify Authorization - Error</title>
    <style>
        body \x7b
            font-family: -apple-system, BlinkMacSystemFont, \x27Segoe UI\x27, Roboto, Oxygen, Ubuntu, Cantarell, sans-serif;
            background: linear-gradient(135deg, #dc2626, #ef4444);
            color: white;
            margin: 0;
            padding: 0;
            display: flex;
            justify-content: center;
            align-items: center;
            height: 100vh;
            text-align: center;
        \x7d
        .container \x7b
            background: rgba(0, 0, 0, 0.1);
            backdrop-filter: blur(10px);
            padding: 3rem;
            border-radius: 20px;
            max-width: 500px;
            box-shadow: 0 8px 32px rgba(0, 0, 0, 0.3);
        \x7d
        .error-icon \x7b
            font-size: 4rem;
            margin-bottom: 1rem;
        \x7d
        h1 \x7b
            margin: 1rem 0;
            font-size: 2rem;
            font-weight: 300;
        \x7d
        p \x7b
            font-size: 1.1rem;
            line-height: 1.6;
            margin: 1.5rem 0;
            opacity: 0.9;
        \x7d
        .error-info \x7b
            background: rgba(255, 255, 255, 0.1);
            padding: 1rem;
            border-radius: 10px;
            margin: 1.5rem 0;
            border: 1px solid rgba(255, 255, 255, 0.2);
        \x7d
        .footer \x7b
            margin-top: 2rem;
            font-size: 0.9rem;
            opacity: 0.7;
        \x7d
    </style>
</head>
<body>
    <div class=\"container\">
        <div class=\"error-icon\">❌</div>
        <h1>Authorization Failed</h1>
        <p>There was an error during the Spotify authorization process.</p>

        <div class=\"error-info\">
            <strong>Error: "

/-- The error page template after the interpolation point. -/
def errorPageAfter : String :=
"</strong>
        </div>

        <p>Please return to VS Code and try the authorization process again. You can safely close this browser tab.</p>

        <div class=\"footer\">
            VSCode Pomodoro Spotify Extension
        </div>
    </div>
</body>
</html>"

/-- `getErrorPageHtml(error)`: the template literal interpolates the raw
`error` string between the two static template halves. -/
def getErrorPageHtml (error : String) : String :=
  errorPageBefore ++ error ++ errorPageAfter

/-- Modelled from the spec: missing from the source — the sanitization /
HTML-escaping step the spec requires for the embedded error code
("sanitized for HTML injection", "surfaced verbatim but HTML-escaped"),
replacing each HTML metacharacter by its entity. -/
def htmlEscapeChar (c : Char) : String :=
  if c = '&' then "&amp;"
  else if c = '<' then "&lt;"
  else if c = '>' then "&gt;"
  else if c = '"' then "&quot;"
  else if c = '\x27' then "&#39;"
  else String.mk [c]

/-- Modelled from the spec: HTML-escaping of a whole string. -/
def htmlEscape (s : String) : String :=
  String.join (s.toList.map htmlEscapeChar)

/-- `handleCallback`: serves `/callback`. With a truthy `code`, answers the
success page and schedules the delayed VS Code URI hand-off; with a truthy
`error`, answers the error page embedding the error; otherwise a 400. -/
def handleCallback (query : CallbackQuery) : HttpResponse × Option UriHandoff :=
  if truthyStr query.code then
    ({ status := 200, contentType := "text/html", body := getSuccessPageHtml },
     some { code := query.code.getD "", state := query.state.getD "" })
  else if truthyStr query.error then
    ({ status := 200, contentType := "text/html",
       body := getErrorPageHtml (query.error.getD "") }, none)
  else
    ({ status := 400, contentType := "text/plain",
       body := "Error: Missing authorization code or error parameter" }, none)

/-! ## Auth coordinator (`SpotifyService`)

`handleAuthCallback`, `authenticate`'s timeout callback and the token
operations are stateful methods: they become functions from an explicit
service state to a new state plus the list of emitted side effects, the
outcome of the outbound token-endpoint round trip being an explicit
argument. -/

/-- The typed errors used to reject the pending authentication session. -/
inductive AuthError where
  /-- `new Error('Invalid state parameter - potential CSRF attack')`. -/
  | invalidState : AuthError
  /-- `new Error('Token exchange failed: <status> <body>')` thrown by
  `exchangeCodeForTokens` on a non-200 response. -/
  | exchangeFailed (status : Nat) (body : String) : AuthError
  /-- `new Error('Authentication failed: <error>')` for a provider-reported
  `error` parameter. -/
  | providerError (error : String) : AuthError
  /-- `new Error('Authentication timeout')`. -/
  | timeout : AuthError
deriving DecidableEq

/-- The observable side effects emitted by the coordinator. -/
inductive Effect where
  /-- The outbound POST to the token endpoint made by
  `exchangeCodeForTokens`. -/
  | exchangeRequest (code : String) : Effect
  /-- Persisting tokens after a successful exchange. -/
  | storeTokens (access : Option String) (refresh : Option String)
      (expiry : Int) : Effect
  /-- Firing the `onAuthStateChange` event emitter. -/
  | fireAuthStateChange (v : Bool) : Effect
  /-- Calling the stored `pendingAuthResolve` continuation. -/
  | resolvePending : Effect
  /-- Calling the stored `pendingAuthReject` continuation. -/
  | rejectPending (e : AuthError) : Effect
  /-- `vscode.window.showErrorMessage` with a literal message. -/
  | showErrorMessage (msg : String) : Effect
  /-- `vscode.window.showErrorMessage` interpolating the caught exchange
  error. -/
  | showAuthFailedMessage (e : AuthError) : Effect
  /-- `vscode.window.showInformationMessage`. -/
  | showInfoMessage (msg : String) : Effect
  /-- `authCallbackServer?.stopServer()`. -/
  | stopListener : Effect
deriving DecidableEq

/-- The mutable fields of `SpotifyService` that the auth flow touches: the
PKCE verifier, the anti-CSRF state, whether the `pendingAuthResolve` /
`pendingAuthReject` continuations are set, and the callback server. -/
structure ServiceState where
  codeVerifier : String
  authState : String
  pendingAuthResolve : Bool
  pendingAuthReject : Bool
  listener : AuthCallbackServerState
deriving DecidableEq

/-- The parsed JSON of a token-endpoint response, with the HTTP status and
raw body kept for the failure path. -/
structure TokenResponse where
  statusCode : Nat
  body : String
  access_token : Option String
  refresh_token : Option String
  expires_in : Int
deriving DecidableEq

/-- `handleAuthCallback(uri)`: verifies the `state` parameter, exchanges a
truthy `code` when a resolve continuation is pending, otherwise surfaces a
truthy provider `error` when a reject continuation is pending, then clears
both continuations and stops the listener. On a state mismatch it rejects,
reports a security error and stops the listener without clearing the
continuations. `resp` is the outcome of the token-endpoint round trip and
`now` the time the response is received. -/
def handleAuthCallback (s : ServiceState) (q : CallbackQuery)
    (resp : TokenResponse) (now : Int) : ServiceState × List Effect :=
  let code := q.code
  let error := q.error
  let state := q.state
  if state ≠ some s.authState then
    ({ s with listener := stopServer s.listener },
     (if s.pendingAuthReject then [Effect.rejectPending AuthError.invalidState]
      else []) ++
     [Effect.showErrorMessage "Authentication failed: Security error",
      Effect.stopListener])
  else
    let branch : List Effect :=
      if truthyStr code && s.pendingAuthResolve then
        if resp.statusCode = 200 then
          [Effect.exchangeRequest (code.getD ""),
           Effect.storeTokens resp.access_token resp.refresh_token
             (now + resp.expires_in * 1000),
           Effect.fireAuthStateChange true,
           Effect.resolvePending,
           Effect.showInfoMessage "🎉 Spotify Connected! Configure your playlists in Settings to enable automatic music switching during focus sessions."]
        else
          [Effect.exchangeRequest (code.getD "")] ++
          (if s.pendingAuthReject then
            [Effect.rejectPending
              (AuthError.exchangeFailed resp.statusCode resp.body)]
           else []) ++
          [Effect.showAuthFailedMessage
            (AuthError.exchangeFailed resp.statusCode resp.body)]
      else if truthyStr error && s.pendingAuthReject then
        [Effect.rejectPending (AuthError.providerError (error.getD "")),
         Effect.showErrorMessage
           ("Spotify authentication failed: " ++ error.getD "")]
      else
        []
    ({ s with pendingAuthResolve := false, pendingAuthReject := false,
              listener := stopServer s.listener },
     branch ++ [Effect.stopListener])

/-- The 5-minute timeout callback armed by `authenticate`: if the reject
continuation is still set it rejects with the timeout error, clears both
continuations and stops the listener; otherwise it does nothing. -/
def authTimeout (s : ServiceState) : ServiceState × List Effect :=
  if s.pendingAuthReject then
    ({ s with pendingAuthReject := false, pendingAuthResolve := false,
              listener := stopServer s.listener },
     [Effect.rejectPending AuthError.timeout, Effect.stopListener])
  else
    (s, [])

/-! ## Token store (`isAuthenticated` / `refreshAccessToken`) -/

/-- The persisted token record: access and refresh tokens in the secret
store, the absolute expiry timestamp in global state. -/
structure TokenStore where
  accessToken : Option String
  refreshToken : Option String
  tokenExpiry : Option Int
deriving DecidableEq

/-- The parsed JSON of a refresh response. -/
structure RefreshResponse where
  statusCode : Nat
  access_token : String
  refresh_token : Option String
  expires_in : Int
deriving DecidableEq

/-- `refreshAccessToken()`: resolves `false` without a network call when no
truthy refresh token is stored, or when the response status is not 200;
otherwise stores the new access token, stores the new refresh token only
when the response carries a truthy one, sets the expiry to the receipt
time plus `expires_in` seconds, and resolves `true`. -/
def refreshAccessToken (store : TokenStore) (resp : RefreshResponse)
    (now : Int) : TokenStore × Bool :=
  if !truthyStr store.refreshToken then (store, false)
  else if resp.statusCode ≠ 200 then (store, false)
  else
    let store1 := { store with accessToken := some resp.access_token }
    let store2 :=
      if truthyStr resp.refresh_token then
        { store1 with refreshToken := resp.refresh_token }
      else store1
    ({ store2 with tokenExpiry := some (now + resp.expires_in * 1000) }, true)

/-- `isAuthenticated()`: `false` when the stored access token or expiry is
falsy; a token-refresh attempt when the expiry minus the 5-minute buffer
lies before `now`; `true` otherwise. Returns the (possibly updated) store
alongside the result. -/
def isAuthenticated (store : TokenStore) (now : Int) (resp : RefreshResponse) :
    TokenStore × Bool :=
  if !truthyStr store.accessToken || !truthyNum store.tokenExpiry then
    (store, false)
  else if store.tokenExpiry.getD 0 - 300000 < now then
    refreshAccessToken store resp now
  else
    (store, true)

/-! ## Helper notions for the theorems -/

/-- Number of outbound token-exchange requests in an effect list. -/
def countExchanges (effs : List Effect) : Nat :=
  (effs.filter (fun e =>
    match e with
    | Effect.exchangeRequest _ => true
    | _ => false)).length

/-- Number of terminal settlements (resolve or reject of the pending
session) in an effect list. -/
def countSettles (effs : List Effect) : Nat :=
  (effs.filter (fun e =>
    match e with
    | Effect.resolvePending => true
    | Effect.rejectPending _ => true
    | _ => false)).length

/-- `stopServer` always leaves the `server` field cleared. -/
theorem stopServer_server (t : AuthCallbackServerState) :
    (stopServer t).server = none := by
  cases t with
  | mk srv => cases srv <;> simp [stopServer]

/-- Stopping twice is the same as stopping once. -/
theorem stopServer_stopServer (t : AuthCallbackServerState) :
    stopServer (stopServer t) = stopServer t := by
  cases t with
  | mk srv => cases srv <;> simp [stopServer]

/-! ## The claims -/

/-- C1: a callback whose `state` differs from the pending session's stored
state is rejected with the CSRF-specific error, no token-exchange request
is emitted, and the listener is stopped. -/
theorem C1_csrf_mismatch_rejected (s : ServiceState) (q : CallbackQuery)
    (resp : TokenResponse) (now : Int)
    (hstate : q.state ≠ some s.authState)
    (hpending : s.pendingAuthReject = true) :
    (handleAuthCallback s q resp now).2 =
      [Effect.rejectPending AuthError.invalidState,
       Effect.showErrorMessage "Authentication failed: Security error",
       Effect.stopListener] ∧
    countExchanges (handleAuthCallback s q resp now).2 = 0 ∧
    (handleAuthCallback s q resp now).1.listener.server = none := by
  simp [handleAuthCallback, hstate, hpending, countExchanges, stopServer_server]

/-- C1 witness: a pending session with stored state `Y`, a callback with
state `X ≠ Y`. -/
theorem C1_csrf_mismatch_rejected_witness :
    ((some "X" : Option String) ≠ some "Y") ∧
    ((handleAuthCallback ⟨"cv", "Y", true, true, ⟨some ()⟩⟩
        ⟨some "abc123", none, some "X"⟩ ⟨200, "", some "AT", some "RT", 3600⟩ 0).2 =
      [Effect.rejectPending AuthError.invalidState,
       Effect.showErrorMessage "Authentication failed: Security error",
       Effect.stopListener] ∧
     countExchanges (handleAuthCallback ⟨"cv", "Y", true, true, ⟨some ()⟩⟩
        ⟨some "abc123", none, some "X"⟩ ⟨200, "", some "AT", some "RT", 3600⟩ 0).2 = 0 ∧
     (handleAuthCallback ⟨"cv", "Y", true, true, ⟨some ()⟩⟩
        ⟨some "abc123", none, some "X"⟩ ⟨200, "", some "AT", some "RT", 3600⟩ 0).1.listener.server = none) :=
  ⟨by decide,
   C1_csrf_mismatch_rejected ⟨"cv", "Y", true, true, ⟨some ()⟩⟩
     ⟨some "abc123", none, some "X"⟩ ⟨200, "", some "AT", some "RT", 3600⟩ 0
     (by decide) rfl⟩

/-- C2: from a pending session, a callback with a truthy `code` and
matching `state` produces exactly one token-exchange request and exactly
one settlement across two consecutive deliveries of the same query, the
first delivery already returns to Idle, the second leaves the state
unchanged; and a callback delivered after the timeout already rejected the
session emits no exchange and no settlement and leaves the state
unchanged. -/
theorem C2_at_most_one_resolution (s : ServiceState) (q : CallbackQuery)
    (resp resp2 resp3 : TokenResponse) (now now2 now3 : Int) (c : String)
    (hres : s.pendingAuthResolve = true) (hrej : s.pendingAuthReject = true)
    (hstate : q.state = some s.authState)
    (hcode : q.code = some c) (hc : c ≠ "") :
    countExchanges ((handleAuthCallback s q resp now).2 ++
      (handleAuthCallback (handleAuthCallback s q resp now).1 q resp2 now2).2) = 1 ∧
    countSettles ((handleAuthCallback s q resp now).2 ++
      (handleAuthCallback (handleAuthCallback s q resp now).1 q resp2 now2).2) = 1 ∧
    (handleAuthCallback s q resp now).1.pendingAuthResolve = false ∧
    (handleAuthCallback s q resp now).1.pendingAuthReject = false ∧
    (handleAuthCallback (handleAuthCallback s q resp now).1 q resp2 now2).1 =
      (handleAuthCallback s q resp now).1 ∧
    countExchanges (handleAuthCallback (authTimeout s).1 q resp3 now3).2 = 0 ∧
    countSettles (handleAuthCallback (authTimeout s).1 q resp3 now3).2 = 0 ∧
    (handleAuthCallback (authTimeout s).1 q resp3 now3).1 = (authTimeout s).1 := by
  by_cases hsc : resp.statusCode = 200 <;>
    simp [handleAuthCallback, authTimeout, hstate, hcode, hres, hrej, hc, hsc,
          truthyStr, countExchanges, countSettles, stopServer_stopServer,
          List.filter]

/-- C2 witness: a concrete pending session receiving the same valid
callback twice, and a callback after the timeout fired. -/
theorem C2_at_most_one_resolution_witness :
    ((⟨"cv", "Y", true, true, ⟨some ()⟩⟩ : ServiceState).pendingAuthResolve = true) ∧
    countExchanges ((handleAuthCallback ⟨"cv", "Y", true, true, ⟨some ()⟩⟩
        ⟨some "abc123", none, some "Y"⟩ ⟨200, "", some "AT", some "RT", 3600⟩ 0).2 ++
      (handleAuthCallback (handleAuthCallback ⟨"cv", "Y", true, true, ⟨some ()⟩⟩
          ⟨some "abc123", none, some "Y"⟩ ⟨200, "", some "AT", some "RT", 3600⟩ 0).1
        ⟨some "abc123", none, some "Y"⟩ ⟨200, "", some "AT", some "RT", 3600⟩ 1).2) = 1 :=
  ⟨rfl,
   (C2_at_most_one_resolution ⟨"cv", "Y", true, true, ⟨some ()⟩⟩
      ⟨some "abc123", none, some "Y"⟩ ⟨200, "", some "AT", some "RT", 3600⟩
      ⟨200, "", some "AT", some "RT", 3600⟩ ⟨200, "", some "AT", some "RT", 3600⟩
      0 1 2 "abc123" rfl rfl rfl rfl (by decide)).1⟩

/-- C3: every invocation of the callback handler leaves the listener
stopped — this covers the success, CSRF-mismatch, provider-error and
exchange-failure exits — and the timeout firing on a pending session also
leaves the listener stopped. -/
theorem C3_listener_stopped_on_exit (s : ServiceState) (q : CallbackQuery)
    (resp : TokenResponse) (now : Int) :
    (handleAuthCallback s q resp now).1.listener.server = none ∧
    (s.pendingAuthReject = true → (authTimeout s).1.listener.server = none) := by
  constructor
  · by_cases hstate : q.state ≠ some s.authState <;>
      simp [handleAuthCallback, hstate, stopServer_server]
  · intro h
    simp [authTimeout, h, stopServer_server]

/-- C3 witness: a pending session timing out. -/
theorem C3_listener_stopped_on_exit_witness :
    ((⟨"cv", "Y", true, true, ⟨some ()⟩⟩ : ServiceState).pendingAuthReject = true) ∧
    (authTimeout ⟨"cv", "Y", true, true, ⟨some ()⟩⟩).1.listener.server = none :=
  ⟨rfl,
   (C3_listener_stopped_on_exit ⟨"cv", "Y", true, true, ⟨some ()⟩⟩
      ⟨none, none, none⟩ ⟨200, "", some "AT", some "RT", 3600⟩ 0).2 rfl⟩

/-- C10: a callback with matching `state` but neither `code` nor `error`
clears both continuations and stops the listener while emitting no
settlement, and the armed timeout afterwards is a no-op, so the pending
session can never be settled. -/
theorem C10_silent_drop_unsettleable (s : ServiceState) (q : CallbackQuery)
    (resp : TokenResponse) (now : Int)
    (_hres : s.pendingAuthResolve = true) (_hrej : s.pendingAuthReject = true)
    (hstate : q.state = some s.authState)
    (hcode : q.code = none) (herr : q.error = none) :
    (handleAuthCallback s q resp now).2 = [Effect.stopListener] ∧
    countSettles (handleAuthCallback s q resp now).2 = 0 ∧
    countExchanges (handleAuthCallback s q resp now).2 = 0 ∧
    (handleAuthCallback s q resp now).1.pendingAuthResolve = false ∧
    (handleAuthCallback s q resp now).1.pendingAuthReject = false ∧
    (handleAuthCallback s q resp now).1.listener.server = none ∧
    authTimeout (handleAuthCallback s q resp now).1 =
      ((handleAuthCallback s q resp now).1, []) := by
  simp [handleAuthCallback, authTimeout, hstate, hcode, herr, truthyStr,
        countSettles, countExchanges, stopServer_server]

/-- C10 witness: a concrete pending session receiving
`/callback?state=<matching>` with no further parameters. -/
theorem C10_silent_drop_unsettleable_witness :
    ((⟨"cv", "Y", true, true, ⟨some ()⟩⟩ : ServiceState).pendingAuthResolve = true) ∧
    (handleAuthCallback ⟨"cv", "Y", true, true, ⟨some ()⟩⟩ ⟨none, none, some "Y"⟩
       ⟨200, "", some "AT", some "RT", 3600⟩ 0).2 = [Effect.stopListener] :=
  ⟨rfl,
   (C10_silent_drop_unsettleable ⟨"cv", "Y", true, true, ⟨some ()⟩⟩
      ⟨none, none, some "Y"⟩ ⟨200, "", some "AT", some "RT", 3600⟩ 0
      rfl rfl rfl rfl rfl).1⟩

/-- C4: counter-evidence — the listener's error page embeds the provider
error string raw: for the payload `<script>alert(1)</script>` the rendered
page is the template with the raw payload in the middle, and that differs
from the page that would embed its HTML-escaped form, so the claimed
sanitization does not happen. -/
theorem C4_error_page_embeds_raw :
    getErrorPageHtml "<script>alert(1)</script>" =
      errorPageBefore ++ "<script>alert(1)</script>" ++ errorPageAfter ∧
    (handleCallback ⟨none, some "<script>alert(1)</script>", some "x"⟩).1.body =
      errorPageBefore ++ "<script>alert(1)</script>" ++ errorPageAfter ∧
    getErrorPageHtml "<script>alert(1)</script>" ≠
      errorPageBefore ++ htmlEscape "<script>alert(1)</script>" ++ errorPageAfter := by
  refine ⟨rfl, rfl, ?_⟩
  intro h
  have hlen := congrArg String.length h
  rw [getErrorPageHtml, String.length_append, String.length_append,
      String.length_append, String.length_append] at hlen
  have h1 : ("<script>alert(1)</script>" : String).length = 25 := by decide
  have h2 : (htmlEscape "<script>alert(1)</script>").length = 37 := by decide
  omega

/-- C5: `isAuthenticated` is `false` when the stored access token or
expiry is absent; `true` when both are present and the expiry is more than
the 5-minute buffer in the future; and when the expiry is within the
buffer it is exactly the refresh attempt's outcome. -/
theorem C5_isAuthenticated_spec (store : TokenStore) (now : Int)
    (resp : RefreshResponse) :
    ((store.accessToken = none ∨ store.tokenExpiry = none) →
      (isAuthenticated store now resp).2 = false) ∧
    (∀ a e, store.accessToken = some a → a ≠ "" →
      store.tokenExpiry = some e → e ≠ 0 → now + 300000 < e →
      (isAuthenticated store now resp).2 = true) ∧
    (∀ a e, store.accessToken = some a → a ≠ "" →
      store.tokenExpiry = some e → e ≠ 0 → e - 300000 < now →
      isAuthenticated store now resp = refreshAccessToken store resp now) := by
  refine ⟨?_, ?_, ?_⟩
  · rintro (h | h) <;> simp [isAuthenticated, h, truthyStr, truthyNum]
  · intro a e ha hane he hene hlt
    have hnot : ¬ (e - 300000 < now) := by omega
    simp [isAuthenticated, ha, he, truthyStr, truthyNum, hane, hene, hnot]
  · intro a e ha hane he hene hlt
    simp [isAuthenticated, ha, he, truthyStr, truthyNum, hane, hene, hlt]

/-- C5 witness: no stored token; a token expiring 10 minutes from now; a
token expiring 1 minute from now, which defers to the refresh outcome. -/
theorem C5_isAuthenticated_spec_witness :
    (isAuthenticated ⟨none, none, none⟩ 0 ⟨200, "AT", some "RT", 3600⟩).2 = false ∧
    (isAuthenticated ⟨some "AT", some "RT", some 600000⟩ 0
      ⟨200, "AT2", some "RT2", 3600⟩).2 = true ∧
    isAuthenticated ⟨some "AT", some "RT", some 60000⟩ 0
        ⟨200, "AT2", some "RT2", 3600⟩ =
      refreshAccessToken ⟨some "AT", some "RT", some 60000⟩
        ⟨200, "AT2", some "RT2", 3600⟩ 0 :=
  ⟨(C5_isAuthenticated_spec ⟨none, none, none⟩ 0 ⟨200, "AT", some "RT", 3600⟩).1
     (Or.inl rfl),
   (C5_isAuthenticated_spec ⟨some "AT", some "RT", some 600000⟩ 0
      ⟨200, "AT2", some "RT2", 3600⟩).2.1 "AT" 600000 rfl (by decide) rfl
     (by decide) (by decide),
   (C5_isAuthenticated_spec ⟨some "AT", some "RT", some 60000⟩ 0
      ⟨200, "AT2", some "RT2", 3600⟩).2.2 "AT" 60000 rfl (by decide) rfl
     (by decide) (by decide)⟩

/-- C6: the verifier is the unpadded base64url encoding of the 32 random
bytes and is 43 characters long; the challenge is the unpadded base64url
encoding of the SHA-256 digest of the verifier, is deterministic, and is
43 characters long for every verifier. -/
theorem C6_pkce_spec (randomBytes : List Nat) (v : String)
    (hlen : randomBytes.length = 32) :
    generateCodeVerifier randomBytes = String.mk (base64urlEncode randomBytes) ∧
    (generateCodeVerifier randomBytes).length = 43 ∧
    generateCodeChallenge v = String.mk (base64urlEncode (sha256 (utf8Bytes v))) ∧
    generateCodeChallenge v = generateCodeChallenge v ∧
    (generateCodeChallenge v).length = 43 := by
  refine ⟨rfl, ?_, rfl, rfl, ?_⟩ <;>
    simp [generateCodeVerifier, generateCodeChallenge, String.length,
          base64urlEncode_length, sha256_length, hlen]

/-- C6 witness: 32 concrete bytes. -/
theorem C6_pkce_spec_witness :
    (List.replicate 32 7).length = 32 ∧
    (generateCodeVerifier (List.replicate 32 7)).length = 43 :=
  ⟨by simp, (C6_pkce_spec (List.replicate 32 7) "verifier" (by simp)).2.1⟩

/-- C7: a bind failure with code `EADDRINUSE` is rejected as the dedicated
actionable port-in-use error, any other bind failure is rejected
unchanged, and the two rejections can never coincide. -/
theorem C7_port_in_use_distinct (e other : NodeError)
    (he : e.code = some "EADDRINUSE")
    (hother : other.code ≠ some "EADDRINUSE") :
    startServerOnError e =
      ⟨none, "Port 3000 is already in use. Please ensure no other application is using this port and try again."⟩ ∧
    startServerOnError other = other ∧
    (∀ c, other.code = some c → startServerOnError e ≠ startServerOnError other) := by
  refine ⟨?_, ?_, ?_⟩
  · simp [startServerOnError, he]
  · simp [startServerOnError, hother]
  · intro c hc heq
    have h1 : (startServerOnError e).code = none := by
      simp [startServerOnError, he]
    have h2 : (startServerOnError other).code = some c := by
      have hcne : c ≠ "EADDRINUSE" := by
        intro hceq
        exact hother (hceq ▸ hc)
      simp [startServerOnError, hc, hcne]
    rw [heq, h2] at h1
    exact Option.noConfusion h1

/-- C7 witness: `EADDRINUSE` against `EACCES`. -/
theorem C7_port_in_use_distinct_witness :
    ((⟨some "EADDRINUSE", "listen EADDRINUSE"⟩ : NodeError).code =
      some "EADDRINUSE") ∧
    startServerOnError ⟨some "EADDRINUSE", "listen EADDRINUSE"⟩ =
      ⟨none, "Port 3000 is already in use. Please ensure no other application is using this port and try again."⟩ ∧
    startServerOnError ⟨some "EACCES", "listen EACCES"⟩ =
      ⟨some "EACCES", "listen EACCES"⟩ :=
  ⟨rfl,
   (C7_port_in_use_distinct ⟨some "EADDRINUSE", "listen EADDRINUSE"⟩
      ⟨some "EACCES", "listen EACCES"⟩ rfl (by decide)).1,
   (C7_port_in_use_distinct ⟨some "EADDRINUSE", "listen EADDRINUSE"⟩
      ⟨some "EACCES", "listen EACCES"⟩ rfl (by decide)).2.1⟩

/-- C8: a successful refresh whose response omits the refresh token
replaces the access token, keeps the stored refresh token, and sets the
expiry to the receipt time plus the reported TTL. -/
theorem C8_refresh_frame (store : TokenStore) (resp : RefreshResponse)
    (now : Int)
    (hrt : truthyStr store.refreshToken = true)
    (hstatus : resp.statusCode = 200)
    (homit : resp.refresh_token = none) :
    refreshAccessToken store resp now =
      (⟨some resp.access_token, store.refreshToken,
        some (now + resp.expires_in * 1000)⟩, true) := by
  have hnone : truthyStr (none : Option String) = false := rfl
  simp [refreshAccessToken, hrt, hstatus, homit, hnone]

/-- C8 witness: a stored record refreshed at time 1000 by a 200 response
with no refresh token and a 3600-second TTL. -/
theorem C8_refresh_frame_witness :
    truthyStr (some "RT") = true ∧
    refreshAccessToken ⟨some "OLD", some "RT", some 5⟩ ⟨200, "NEW", none, 3600⟩
        1000 =
      (⟨some "NEW", some "RT", some 3601000⟩, true) :=
  ⟨rfl,
   C8_refresh_frame ⟨some "OLD", some "RT", some 5⟩ ⟨200, "NEW", none, 3600⟩
     1000 rfl rfl rfl⟩

/-- C9: stopping an already-stopped listener is a no-op, and stopping
twice leaves exactly the state one stop leaves. -/
theorem C9_stopServer_idempotent (s : AuthCallbackServerState) :
    (s.server = none → stopServer s = s) ∧
    stopServer (stopServer s) = stopServer s := by
  constructor
  · intro h
    simp [stopServer, h]
  · exact stopServer_stopServer s

/-- C9 witness: the stopped listener. -/
theorem C9_stopServer_idempotent_witness :
    ((⟨none⟩ : AuthCallbackServerState).server = none) ∧
    stopServer ⟨none⟩ = (⟨none⟩ : AuthCallbackServerState) :=
  ⟨rfl, (C9_stopServer_idempotent ⟨none⟩).1 rfl⟩

end PomodoroSpotify
